import Mathlib

/-!
Verification of the `invariants` crate (leveled, selectively-eliminable
assertions): a shallow embedding of `src/lib.rs` in Lean 4.

The crate consists of:
 * `AssertLevel = log::LevelFilter`, an ordered enumeration
   Off < Error < Warn < Info < Debug < Trace;
 * `STATIC_MAX_LEVEL`, a compile-time constant selected by mutually
   exclusive cargo features (`off`/`error`/`warn`/`info`/`debug`/`trace`);
 * `static mut MAX_LEVEL`, the runtime ceiling, with `set_max_level` and
   `max_level` accessors;
 * `AssertConfig`, an immutable wrapper of one `AssertLevel`;
 * five assertion macros `eassert!`/`wassert!`/`iassert!`/`dassert!`/
   `tassert!`, each with an unconfigured arm gating on
   `L <= STATIC_MAX_LEVEL && L <= max_level()` and a configured arm gating
   additionally on `L <= config.assertion_level()`, and running
   `assert!(...)` (panic on a false expression) only when the gate passes.

The embedding makes the process-wide mutable ceiling explicit as a state
record, and models the guarded expression as a state-transforming function
`σ → σ × Bool` so that evaluation (and its side effects) is observable.
-/

namespace Invariants

/-- Embedding of `log::LevelFilter` (the crate aliases it as
`pub type AssertLevel = log::LevelFilter`): six variants in declaration
order Off, Error, Warn, Info, Debug, Trace, with the derived total order. -/
inductive AssertLevel where
  | Off
  | Error
  | Warn
  | Info
  | Debug
  | Trace
deriving DecidableEq, Repr

/-- Rank of a level in the declaration order of `log::LevelFilter`
(the derived `Ord` of the Rust enum compares by this rank). -/
def AssertLevel.toNat : AssertLevel → Nat
  | .Off => 0
  | .Error => 1
  | .Warn => 2
  | .Info => 3
  | .Debug => 4
  | .Trace => 5

instance : LE AssertLevel := ⟨fun a b => a.toNat ≤ b.toNat⟩

instance (a b : AssertLevel) : Decidable (a ≤ b) :=
  inferInstanceAs (Decidable (a.toNat ≤ b.toNat))

/-- The process state visible to the crate: `maxLevel` embeds the Rust
`static mut MAX_LEVEL: AssertLevel`, and `world` is the caller-owned state
that a guarded expression may read and mutate (used to observe whether the
expression was evaluated). -/
structure ProcState (σ : Type) where
  maxLevel : AssertLevel
  world : σ
deriving DecidableEq, Repr

/-- Process start: `static mut MAX_LEVEL: AssertLevel = AssertLevel::Trace;`
initializes the runtime ceiling to `Trace`. -/
def initState {σ : Type} (w : σ) : ProcState σ :=
  { maxLevel := .Trace, world := w }

/-- `pub fn set_max_level(level: AssertLevel)`: overwrites `MAX_LEVEL`. -/
def set_max_level {σ : Type} (level : AssertLevel) (s : ProcState σ) :
    ProcState σ :=
  { s with maxLevel := level }

/-- `pub fn max_level() -> AssertLevel`: reads `MAX_LEVEL`. -/
def max_level {σ : Type} (s : ProcState σ) : AssertLevel :=
  s.maxLevel

/-- `pub struct AssertConfig { assertion_level: AssertLevel }`. -/
structure AssertConfig where
  assertion_level : AssertLevel
deriving DecidableEq, Repr

/-- `AssertConfig::new(assertion_level)`. -/
def AssertConfig.new (assertion_level : AssertLevel) : AssertConfig :=
  { assertion_level := assertion_level }

/-- Cargo features selecting `STATIC_MAX_LEVEL` in `src/lib.rs`
(`#[cfg(feature = "off")]` through `#[cfg(feature = "trace")]`). -/
inductive Feature where
  | off
  | error
  | warn
  | info
  | debug
  | trace
deriving DecidableEq, Repr

/-- The `#[cfg(feature = ...)]`-selected constant `STATIC_MAX_LEVEL` of
`src/lib.rs`: each feature picks the level of the same name.
Modelled from the spec: the crate manifest (Cargo.toml), which decides
what happens when no static-ceiling feature is selected, is not part of
the sources; per the spec, absence of any option yields the most
permissive default, `Trace`. -/
def STATIC_MAX_LEVEL : Option Feature → AssertLevel
  | some .off => .Off
  | some .error => .Error
  | some .warn => .Warn
  | some .info => .Info
  | some .debug => .Debug
  | some .trace => .Trace
  | none => .Trace

/-- The unconfigured arm common to the five assertion macros:
`if L <= STATIC_MAX_LEVEL && L <= max_level() { assert!(expr, fmt...) }`.
The guarded expression is a state transformer `σ → σ × Bool`; it runs only
when the gate passes. The second component of the result is `true` exactly
when `assert!` panicked (the expression ran and returned `false`). -/
def leveledAssert {σ : Type} (L staticMax : AssertLevel) (s : ProcState σ)
    (expr : σ → σ × Bool) : ProcState σ × Bool :=
  if L ≤ staticMax ∧ L ≤ max_level s then
    let r := expr s.world
    ({ s with world := r.1 }, !r.2)
  else
    (s, false)

/-- The configured arm common to the five assertion macros:
`if L <= STATIC_MAX_LEVEL && L <= max_level()
    && L <= config.assertion_level() { assert!(expr, fmt...) }`. -/
def leveledAssertCfg {σ : Type} (L staticMax : AssertLevel)
    (config : AssertConfig) (s : ProcState σ) (expr : σ → σ × Bool) :
    ProcState σ × Bool :=
  if L ≤ staticMax ∧ L ≤ max_level s ∧ L ≤ config.assertion_level then
    let r := expr s.world
    ({ s with world := r.1 }, !r.2)
  else
    (s, false)

/-- `eassert!(expr, fmt...)`: the unconfigured arm at level `Error`. -/
def eassert {σ : Type} (staticMax : AssertLevel) (s : ProcState σ)
    (expr : σ → σ × Bool) : ProcState σ × Bool :=
  leveledAssert .Error staticMax s expr

/-- `wassert!(expr, fmt...)`: the unconfigured arm at level `Warn`. -/
def wassert {σ : Type} (staticMax : AssertLevel) (s : ProcState σ)
    (expr : σ → σ × Bool) : ProcState σ × Bool :=
  leveledAssert .Warn staticMax s expr

/-- `iassert!(expr, fmt...)`: the unconfigured arm at level `Info`. -/
def iassert {σ : Type} (staticMax : AssertLevel) (s : ProcState σ)
    (expr : σ → σ × Bool) : ProcState σ × Bool :=
  leveledAssert .Info staticMax s expr

/-- `dassert!(expr, fmt...)`: the unconfigured arm at level `Debug`. -/
def dassert {σ : Type} (staticMax : AssertLevel) (s : ProcState σ)
    (expr : σ → σ × Bool) : ProcState σ × Bool :=
  leveledAssert .Debug staticMax s expr

/-- `tassert!(expr, fmt...)`: the unconfigured arm at level `Trace`. -/
def tassert {σ : Type} (staticMax : AssertLevel) (s : ProcState σ)
    (expr : σ → σ × Bool) : ProcState σ × Bool :=
  leveledAssert .Trace staticMax s expr

/-- `eassert!(config; expr, fmt...)`: the configured arm at level `Error`. -/
def eassertCfg {σ : Type} (staticMax : AssertLevel) (config : AssertConfig)
    (s : ProcState σ) (expr : σ → σ × Bool) : ProcState σ × Bool :=
  leveledAssertCfg .Error staticMax config s expr

/-- `wassert!(config; expr, fmt...)`: the configured arm at level `Warn`. -/
def wassertCfg {σ : Type} (staticMax : AssertLevel) (config : AssertConfig)
    (s : ProcState σ) (expr : σ → σ × Bool) : ProcState σ × Bool :=
  leveledAssertCfg .Warn staticMax config s expr

/-- `iassert!(config; expr, fmt...)`: the configured arm at level `Info`. -/
def iassertCfg {σ : Type} (staticMax : AssertLevel) (config : AssertConfig)
    (s : ProcState σ) (expr : σ → σ × Bool) : ProcState σ × Bool :=
  leveledAssertCfg .Info staticMax config s expr

/-- `dassert!(config; expr, fmt...)`: the configured arm at level `Debug`. -/
def dassertCfg {σ : Type} (staticMax : AssertLevel) (config : AssertConfig)
    (s : ProcState σ) (expr : σ → σ × Bool) : ProcState σ × Bool :=
  leveledAssertCfg .Debug staticMax config s expr

/-- `tassert!(config; expr, fmt...)`: the configured arm at level `Trace`. -/
def tassertCfg {σ : Type} (staticMax : AssertLevel) (config : AssertConfig)
    (s : ProcState σ) (expr : σ → σ × Bool) : ProcState σ × Bool :=
  leveledAssertCfg .Trace staticMax config s expr

/-! ### Helper lemmas -/

/-- Unfolding lemma for the unconfigured arm. -/
theorem leveledAssert_def {σ : Type} (L staticMax : AssertLevel)
    (s : ProcState σ) (expr : σ → σ × Bool) :
    leveledAssert L staticMax s expr =
      if L ≤ staticMax ∧ L ≤ max_level s then
        ({ s with world := (expr s.world).1 }, !(expr s.world).2)
      else
        (s, false) :=
  rfl

/-- Unfolding lemma for the configured arm. -/
theorem leveledAssertCfg_def {σ : Type} (L staticMax : AssertLevel)
    (config : AssertConfig) (s : ProcState σ) (expr : σ → σ × Bool) :
    leveledAssertCfg L staticMax config s expr =
      if L ≤ staticMax ∧ L ≤ max_level s ∧ L ≤ config.assertion_level then
        ({ s with world := (expr s.world).1 }, !(expr s.world).2)
      else
        (s, false) :=
  rfl

/-- A counter-incrementing guarded expression observes evaluation: the
unconfigured arm bumps the counter exactly when its gate passes. -/
theorem leveledAssert_counter (L staticMax rt : AssertLevel) (n : Nat)
    (b : Bool) :
    ((leveledAssert L staticMax ⟨rt, n⟩ (fun m => (m + 1, b))).1.world = n + 1)
      ↔ (L ≤ staticMax ∧ L ≤ rt) := by
  rw [leveledAssert_def]
  split
  · exact iff_of_true rfl (by assumption)
  · exact iff_of_false (by simp) (by assumption)

/-- The unconfigured arm panics exactly when its gate passes and the
expression is false. -/
theorem leveledAssert_panics (L staticMax rt : AssertLevel) (n : Nat)
    (b : Bool) :
    ((leveledAssert L staticMax ⟨rt, n⟩ (fun m => (m + 1, b))).2 = true)
      ↔ ((L ≤ staticMax ∧ L ≤ rt) ∧ b = false) := by
  rw [leveledAssert_def]
  simp only [max_level]
  by_cases h : L ≤ staticMax ∧ L ≤ rt
  · rw [if_pos h]
    simp [h]
  · rw [if_neg h]
    simp [h]

/-- A counter-incrementing guarded expression observes evaluation: the
configured arm bumps the counter exactly when its three-way gate passes. -/
theorem leveledAssertCfg_counter (L staticMax rt : AssertLevel)
    (c : AssertConfig) (n : Nat) (b : Bool) :
    ((leveledAssertCfg L staticMax c ⟨rt, n⟩
        (fun m => (m + 1, b))).1.world = n + 1)
      ↔ (L ≤ staticMax ∧ L ≤ rt ∧ L ≤ c.assertion_level) := by
  rw [leveledAssertCfg_def]
  split
  · exact iff_of_true rfl (by assumption)
  · exact iff_of_false (by simp) (by assumption)

/-- The configured arm panics exactly when its three-way gate passes and
the expression is false. -/
theorem leveledAssertCfg_panics (L staticMax rt : AssertLevel)
    (c : AssertConfig) (n : Nat) (b : Bool) :
    ((leveledAssertCfg L staticMax c ⟨rt, n⟩ (fun m => (m + 1, b))).2 = true)
      ↔ ((L ≤ staticMax ∧ L ≤ rt ∧ L ≤ c.assertion_level) ∧ b = false) := by
  rw [leveledAssertCfg_def]
  simp only [max_level]
  by_cases h : L ≤ staticMax ∧ L ≤ rt ∧ L ≤ c.assertion_level
  · rw [if_pos h]
    simp [h]
  · rw [if_neg h]
    simp [h]

/-! ### Claim theorems -/

/-- Claim C1: for every level L in Error..Trace, every static ceiling and
every runtime ceiling, the unconfigured call form of the level-L assertion
evaluates and checks its guarded expression iff L ≤ StaticCeiling and
L ≤ RuntimeCeiling; in particular, with StaticCeiling = Debug and
RuntimeCeiling = Warn, an Info-level check does not evaluate its
expression and an Error-level check does. -/
theorem unconfigured_gate_iff (staticMax rt : AssertLevel) (n : Nat)
    (b : Bool) :
    (((eassert staticMax ⟨rt, n⟩ (fun m => (m + 1, b))).1.world = n + 1)
        ↔ (AssertLevel.Error ≤ staticMax ∧ AssertLevel.Error ≤ rt))
    ∧ (((wassert staticMax ⟨rt, n⟩ (fun m => (m + 1, b))).1.world = n + 1)
        ↔ (AssertLevel.Warn ≤ staticMax ∧ AssertLevel.Warn ≤ rt))
    ∧ (((iassert staticMax ⟨rt, n⟩ (fun m => (m + 1, b))).1.world = n + 1)
        ↔ (AssertLevel.Info ≤ staticMax ∧ AssertLevel.Info ≤ rt))
    ∧ (((dassert staticMax ⟨rt, n⟩ (fun m => (m + 1, b))).1.world = n + 1)
        ↔ (AssertLevel.Debug ≤ staticMax ∧ AssertLevel.Debug ≤ rt))
    ∧ (((tassert staticMax ⟨rt, n⟩ (fun m => (m + 1, b))).1.world = n + 1)
        ↔ (AssertLevel.Trace ≤ staticMax ∧ AssertLevel.Trace ≤ rt))
    ∧ ((iassert .Debug ⟨.Warn, n⟩ (fun m => (m + 1, b))).1.world = n)
    ∧ ((eassert .Debug ⟨.Warn, n⟩ (fun m => (m + 1, b))).1.world = n + 1) :=
  ⟨leveledAssert_counter .Error staticMax rt n b,
   leveledAssert_counter .Warn staticMax rt n b,
   leveledAssert_counter .Info staticMax rt n b,
   leveledAssert_counter .Debug staticMax rt n b,
   leveledAssert_counter .Trace staticMax rt n b,
   by
     rw [iassert, leveledAssert_def,
       if_neg (fun h =>
         absurd (h.2 : AssertLevel.Info ≤ AssertLevel.Warn) (by decide))],
   by
     rw [eassert, leveledAssert_def,
       if_pos ⟨(by decide : AssertLevel.Error ≤ AssertLevel.Debug),
         (by decide : AssertLevel.Error ≤ AssertLevel.Warn)⟩]⟩

/-- Claim C2: for every level L in Error..Trace, every static ceiling,
every runtime ceiling and every AssertConfig c, the configured call form
of the level-L assertion evaluates and checks its guarded expression iff
L ≤ StaticCeiling, L ≤ RuntimeCeiling and L ≤ c.assertion_level; in
particular a Warn-level check supplied a config of level Error never
evaluates its expression, regardless of the runtime ceiling. -/
theorem configured_gate_iff (staticMax rt : AssertLevel) (c : AssertConfig)
    (n : Nat) (b : Bool) :
    (((eassertCfg staticMax c ⟨rt, n⟩ (fun m => (m + 1, b))).1.world = n + 1)
        ↔ (AssertLevel.Error ≤ staticMax ∧ AssertLevel.Error ≤ rt
             ∧ AssertLevel.Error ≤ c.assertion_level))
    ∧ (((wassertCfg staticMax c ⟨rt, n⟩ (fun m => (m + 1, b))).1.world = n + 1)
        ↔ (AssertLevel.Warn ≤ staticMax ∧ AssertLevel.Warn ≤ rt
             ∧ AssertLevel.Warn ≤ c.assertion_level))
    ∧ (((iassertCfg staticMax c ⟨rt, n⟩ (fun m => (m + 1, b))).1.world = n + 1)
        ↔ (AssertLevel.Info ≤ staticMax ∧ AssertLevel.Info ≤ rt
             ∧ AssertLevel.Info ≤ c.assertion_level))
    ∧ (((dassertCfg staticMax c ⟨rt, n⟩ (fun m => (m + 1, b))).1.world = n + 1)
        ↔ (AssertLevel.Debug ≤ staticMax ∧ AssertLevel.Debug ≤ rt
             ∧ AssertLevel.Debug ≤ c.assertion_level))
    ∧ (((tassertCfg staticMax c ⟨rt, n⟩ (fun m => (m + 1, b))).1.world = n + 1)
        ↔ (AssertLevel.Trace ≤ staticMax ∧ AssertLevel.Trace ≤ rt
             ∧ AssertLevel.Trace ≤ c.assertion_level))
    ∧ (wassertCfg staticMax (AssertConfig.new .Error) ⟨rt, n⟩
          (fun m => (m + 1, b)) = (⟨rt, n⟩, false)) :=
  ⟨leveledAssertCfg_counter .Error staticMax rt c n b,
   leveledAssertCfg_counter .Warn staticMax rt c n b,
   leveledAssertCfg_counter .Info staticMax rt c n b,
   leveledAssertCfg_counter .Debug staticMax rt c n b,
   leveledAssertCfg_counter .Trace staticMax rt c n b,
   by
     rw [wassertCfg, leveledAssertCfg_def, if_neg]
     intro h
     exact absurd h.2.2 (by decide)⟩

/-- Claim C10: the config accessor inverts construction:
`AssertConfig::new(v).assertion_level()` returns `v` for every level `v`,
and the stored level of a config is exactly the value it was constructed
with (the accessor is a pure projection). -/
theorem assertConfig_new_roundtrip (v : AssertLevel) :
    (AssertConfig.new v).assertion_level = v :=
  rfl

/-- Claim C3, counterexample: the claim says a configured check evaluates
its expression iff L ≤ StaticCeiling and L ≤ config level, independent of
the RuntimeCeiling. At StaticCeiling = Trace, RuntimeCeiling = Error,
config level = Trace, a Warn-level configured check satisfies both of the
claimed conditions yet does not evaluate its expression (counter stays 0),
because the macro also compares against `max_level()`. -/
theorem configured_bypasses_runtime_cex :
    ¬ (((wassertCfg .Trace (AssertConfig.new .Trace)
            ⟨.Error, (0 : Nat)⟩ (fun m => (m + 1, true))).1.world = 0 + 1)
        ↔ (AssertLevel.Warn ≤ .Trace
             ∧ AssertLevel.Warn ≤ (AssertConfig.new .Trace).assertion_level)) := by
  decide

/-- Claim C3, amended: for every level L, a check that supplies an
AssertConfig still consults the RuntimeCeiling: the guarded expression is
evaluated iff L ≤ StaticCeiling, L ≤ RuntimeCeiling and L ≤ the supplied
config level — the configured form narrows, it never bypasses the runtime
ceiling. -/
theorem configured_consults_runtime (L staticMax rt : AssertLevel)
    (c : AssertConfig) (n : Nat) (b : Bool) :
    ((leveledAssertCfg L staticMax c ⟨rt, n⟩
        (fun m => (m + 1, b))).1.world = n + 1)
      ↔ (L ≤ staticMax ∧ L ≤ rt ∧ L ≤ c.assertion_level) :=
  leveledAssertCfg_counter L staticMax rt c n b

/-- Claim C4: a check whose gate does not pass does not evaluate its
guarded expression at all: the caller state (including any counter the
expression would have bumped) and the runtime ceiling are returned
unchanged, and no panic is produced — for both the unconfigured and the
configured arm, at every level. -/
theorem disabled_no_effect :
    (∀ (σ : Type) (L staticMax : AssertLevel) (s : ProcState σ)
        (expr : σ → σ × Bool),
        ¬ (L ≤ staticMax ∧ L ≤ max_level s) →
        leveledAssert L staticMax s expr = (s, false))
    ∧ (∀ (σ : Type) (L staticMax : AssertLevel) (c : AssertConfig)
        (s : ProcState σ) (expr : σ → σ × Bool),
        ¬ (L ≤ staticMax ∧ L ≤ max_level s ∧ L ≤ c.assertion_level) →
        leveledAssertCfg L staticMax c s expr = (s, false)) :=
  ⟨fun σ L staticMax s expr h => by rw [leveledAssert_def, if_neg h],
   fun σ L staticMax c s expr h => by rw [leveledAssertCfg_def, if_neg h]⟩

/-- Witness for C4: a Trace-level check under StaticCeiling = Error is
disabled; its counter-incrementing expression leaves the counter at 0 and
the call returns the state unchanged with no panic. -/
theorem disabled_no_effect_witness :
    (¬ (AssertLevel.Trace ≤ AssertLevel.Error
          ∧ AssertLevel.Trace ≤ max_level (initState (0 : Nat))))
    ∧ leveledAssert .Trace .Error (initState (0 : Nat))
        (fun m => (m + 1, false)) = (initState 0, false) :=
  ⟨by decide,
   disabled_no_effect.1 Nat .Trace .Error (initState 0)
     (fun m => (m + 1, false)) (by decide)⟩

/-- Claim C5: the panic primitive fires iff the check is enabled by every
applicable ceiling and its expression evaluates to false (for both arms);
concretely, with StaticCeiling = Trace and RuntimeCeiling = Trace, an
Error-level check of `1 == 2` panics and one of `2 == 2` does not. -/
theorem panic_iff_enabled_and_false :
    (∀ (σ : Type) (L staticMax : AssertLevel) (s : ProcState σ)
        (expr : σ → σ × Bool),
        ((leveledAssert L staticMax s expr).2 = true
          ↔ ((L ≤ staticMax ∧ L ≤ max_level s)
               ∧ (expr s.world).2 = false)))
    ∧ (∀ (σ : Type) (L staticMax : AssertLevel) (c : AssertConfig)
        (s : ProcState σ) (expr : σ → σ × Bool),
        ((leveledAssertCfg L staticMax c s expr).2 = true
          ↔ ((L ≤ staticMax ∧ L ≤ max_level s ∧ L ≤ c.assertion_level)
               ∧ (expr s.world).2 = false)))
    ∧ (eassert .Trace (initState (0 : Nat))
        (fun m => (m, decide (1 = 2)))).2 = true
    ∧ (eassert .Trace (initState (0 : Nat))
        (fun m => (m, decide (2 = 2)))).2 = false := by
  refine ⟨fun σ L staticMax s expr => ?_,
    fun σ L staticMax c s expr => ?_, by decide, by decide⟩
  · rw [leveledAssert_def]
    by_cases h : L ≤ staticMax ∧ L ≤ max_level s
    · rw [if_pos h]
      simp [h]
    · rw [if_neg h]
      simp [h]
  · rw [leveledAssertCfg_def]
    by_cases h : L ≤ staticMax ∧ L ≤ max_level s ∧ L ≤ c.assertion_level
    · rw [if_pos h]
      simp [h]
    · rw [if_neg h]
      simp [h]

/-- Claim C6: with StaticCeiling = Off every leveled assertion at every
level Error..Trace is disabled unconditionally: for every runtime ceiling
and every AssertConfig, the expression is not evaluated and no panic is
produced, even for a false expression with RuntimeCeiling = Trace. -/
theorem off_disables_all :
    ∀ (σ : Type) (s : ProcState σ) (expr : σ → σ × Bool) (c : AssertConfig),
      eassert .Off s expr = (s, false)
      ∧ wassert .Off s expr = (s, false)
      ∧ iassert .Off s expr = (s, false)
      ∧ dassert .Off s expr = (s, false)
      ∧ tassert .Off s expr = (s, false)
      ∧ eassertCfg .Off c s expr = (s, false)
      ∧ wassertCfg .Off c s expr = (s, false)
      ∧ iassertCfg .Off c s expr = (s, false)
      ∧ dassertCfg .Off c s expr = (s, false)
      ∧ tassertCfg .Off c s expr = (s, false) := by
  intro σ s expr c
  refine ⟨?_, ?_, ?_, ?_, ?_, ?_, ?_, ?_, ?_, ?_⟩
  · rw [eassert, leveledAssert_def]
    exact if_neg fun h => absurd h.1 (by decide)
  · rw [wassert, leveledAssert_def]
    exact if_neg fun h => absurd h.1 (by decide)
  · rw [iassert, leveledAssert_def]
    exact if_neg fun h => absurd h.1 (by decide)
  · rw [dassert, leveledAssert_def]
    exact if_neg fun h => absurd h.1 (by decide)
  · rw [tassert, leveledAssert_def]
    exact if_neg fun h => absurd h.1 (by decide)
  · rw [eassertCfg, leveledAssertCfg_def]
    exact if_neg fun h => absurd h.1 (by decide)
  · rw [wassertCfg, leveledAssertCfg_def]
    exact if_neg fun h => absurd h.1 (by decide)
  · rw [iassertCfg, leveledAssertCfg_def]
    exact if_neg fun h => absurd h.1 (by decide)
  · rw [dassertCfg, leveledAssertCfg_def]
    exact if_neg fun h => absurd h.1 (by decide)
  · rw [tassertCfg, leveledAssertCfg_def]
    exact if_neg fun h => absurd h.1 (by decide)

/-- Every level is at most `Trace`, the maximum of the order. -/
theorem le_Trace (L : AssertLevel) : L ≤ .Trace := by
  cases L <;> decide

/-- Claim C7: `set_max_level`/`max_level` round-trip — after
`set_max_level v`, `max_level` returns `v` — and every subsequent
unconfigured check whose level exceeds `v` does nothing, even on a false
expression; concretely, after `set_max_level Warn`, `max_level` is `Warn`
and an Info-level unconfigured check with a false expression produces no
panic. -/
theorem set_max_level_roundtrip :
    (∀ (σ : Type) (v : AssertLevel) (s : ProcState σ),
        max_level (set_max_level v s) = v)
    ∧ (∀ (σ : Type) (L v staticMax : AssertLevel) (s : ProcState σ)
        (expr : σ → σ × Bool),
        ¬ L ≤ v →
        leveledAssert L staticMax (set_max_level v s) expr
          = (set_max_level v s, false))
    ∧ max_level (set_max_level .Warn (initState (0 : Nat))) = .Warn
    ∧ (∀ n : Nat,
        iassert .Trace (set_max_level .Warn (initState n))
          (fun m => (m + 1, false))
          = (set_max_level .Warn (initState n), false)) := by
  refine ⟨fun σ v s => rfl, fun σ L v staticMax s expr h => ?_, rfl,
    fun n => ?_⟩
  · rw [leveledAssert_def]
    exact if_neg fun hg => absurd hg.2 h
  · rw [iassert, leveledAssert_def]
    exact if_neg fun hg =>
      absurd (hg.2 : AssertLevel.Info ≤ AssertLevel.Warn) (by decide)

/-- Witness for C7: the hypothesis `¬ L ≤ v` is satisfiable — at
`L = Info`, `v = Warn` the disabled-after-set behavior holds concretely. -/
theorem set_max_level_roundtrip_witness :
    (¬ AssertLevel.Info ≤ AssertLevel.Warn)
    ∧ leveledAssert .Info .Trace (set_max_level .Warn (initState (0 : Nat)))
        (fun m => (m + 1, false))
        = (set_max_level .Warn (initState 0), false) :=
  ⟨by decide,
   set_max_level_roundtrip.2.1 Nat .Info .Warn .Trace (initState 0)
     (fun m => (m + 1, false)) (by decide)⟩

/-- Claim C8: the runtime ceiling starts at `Trace` — before any
`set_max_level`, `max_level` returns `Trace` — and no operation of the
core other than `set_max_level` mutates it: both assertion arms return the
ceiling unchanged at every level, and `max_level` is a pure read. -/
theorem runtime_ceiling_lifecycle :
    (∀ (σ : Type) (w : σ), max_level (initState w) = .Trace)
    ∧ (∀ (σ : Type) (L staticMax : AssertLevel) (s : ProcState σ)
        (expr : σ → σ × Bool),
        (leveledAssert L staticMax s expr).1.maxLevel = s.maxLevel)
    ∧ (∀ (σ : Type) (L staticMax : AssertLevel) (c : AssertConfig)
        (s : ProcState σ) (expr : σ → σ × Bool),
        (leveledAssertCfg L staticMax c s expr).1.maxLevel = s.maxLevel) := by
  refine ⟨fun σ w => rfl, fun σ L staticMax s expr => ?_,
    fun σ L staticMax c s expr => ?_⟩
  · rw [leveledAssert_def]
    split <;> rfl
  · rw [leveledAssertCfg_def]
    split <;> rfl

/-- Claim C9: when no static-ceiling feature is selected, the static
ceiling defaults to the most permissive value `Trace`, so every level
passes the static comparison and gating falls entirely to the runtime
ceiling (the gate of the unconfigured arm reduces to `L ≤ max_level`). -/
theorem static_default_is_trace :
    STATIC_MAX_LEVEL none = .Trace
    ∧ (∀ L : AssertLevel, L ≤ STATIC_MAX_LEVEL none)
    ∧ (∀ (σ : Type) (L : AssertLevel) (s : ProcState σ)
        (expr : σ → σ × Bool),
        leveledAssert L (STATIC_MAX_LEVEL none) s expr
          = if L ≤ max_level s then
              ({ s with world := (expr s.world).1 }, !(expr s.world).2)
            else
              (s, false)) := by
  refine ⟨rfl, le_Trace, fun σ L s expr => ?_⟩
  rw [leveledAssert_def]
  by_cases h : L ≤ max_level s
  · rw [if_pos ⟨le_Trace L, h⟩, if_pos h]
  · rw [if_neg fun hg => absurd hg.2 h, if_neg h]

end Invariants
